import Mathlib

/-!
Verification development for the VID-Pipe repository: a tiered
cache-aside identity-verification pipeline.  The repository contains three
near-duplicate pipeline implementations plus a persistence layer:

* `src/supabaseClient.js` — persistence-layer pipeline (`verifyIdentity`
  over the `verification_proofs` table, with an expiry-filtered lookup and
  a `generateFingerprint` helper hashing `\x7bissuer, credentialId\x7d`);
* `src/unnamed/part_000` — `verifyWithSupabase.js` (`verifyIdentity` over
  the `identity_verifications` table, with input validation and the
  normalizing `generateIdentityHash`);
* `src/unnamed/part_001` — VID-Pipe core node (express server with an LRU
  `proofCache` and the non-normalizing `generateRequestHash`);
* `src/unnamed/part_002` — the all-in-one server (`index.js`): LRU cache →
  Supabase store → compute, reusing `generateIdentityHash`.

Everything below is a shallow embedding: JavaScript strings become Lean
`String`s, awaited external effects (the Supabase calls, the mock compute,
`crypto.randomBytes`) become explicit parameters, and the handlers become
pure state-passing functions.
-/

/-- JavaScript string-trimming whitespace (the ASCII whitespace characters;
the only ones occurring in the pipelines' inputs). -/
def isJsWhitespace (c : Char) : Bool :=
  c = ' ' || c = '\t' || c = '\n' || c = '\r'

/-- JavaScript `s.trim()`: strip leading and trailing whitespace. -/
def jsTrim (s : String) : String :=
  ⟨((s.toList.dropWhile isJsWhitespace).reverse.dropWhile isJsWhitespace).reverse⟩

/-- Lower-casing of one character as JavaScript `toLowerCase()` acts on the
ASCII range (the issuers in play are ASCII). -/
def jsToLowerChar (c : Char) : Char :=
  if 'A' ≤ c ∧ c ≤ 'Z' then Char.ofNat (c.toNat + 32) else c

/-- JavaScript `s.toLowerCase()`. -/
def jsToLower (s : String) : String :=
  ⟨s.toList.map jsToLowerChar⟩

/-- JavaScript `s.startsWith(pre)`. -/
def jsStartsWith (s pre : String) : Bool :=
  pre.toList.isPrefixOf s.toList

/-- Substring occurrence over character lists (helper for `jsIncludes`). -/
def charListInfix (sub : List Char) : List Char → Bool
  | [] => sub.isEmpty
  | c :: rest => sub.isPrefixOf (c :: rest) || charListInfix sub rest

/-- JavaScript `s.includes(sub)`. -/
def jsIncludes (s sub : String) : Bool :=
  charListInfix sub.toList s.toList

/-- JavaScript falsiness of a string (`!s` is true exactly on the empty
string); a missing request field (`undefined`) is modelled as `""`, which
the `!issuer` checks treat identically. -/
def jsFalsy (s : String) : Bool :=
  s.toList.isEmpty

/-- SHA-256 hex digest `crypto.createHash("sha256").update(s).digest("hex")`,
modelled as an injective function of its input string.  The code relies on
exactly two properties of the digest: determinism (same input, same output)
and collision-resistance (distinct inputs give distinct keys); the model
realises both by tagging the input itself. -/
def sha256hex (s : String) : String := "sha256:" ++ s

/-- Escaping of one character inside a JSON string literal, as
`JSON.stringify` performs it (quote and backslash; other escapes do not
occur in the inputs the pipelines build). -/
def jsonEscapeChar (c : Char) : String :=
  if c = '\"' then "\\\"" else if c = '\\' then "\\\\" else String.singleton c

/-- `JSON.stringify` escaping of a string body. -/
def jsonEscape (s : String) : String := String.join (s.toList.map jsonEscapeChar)

/-- A JSON string literal: quoted, escaped. -/
def jsonStr (s : String) : String := "\"" ++ jsonEscape s ++ "\""

/-- A JavaScript credential value as the pipelines receive it: either a
plain string or an object carrying an optional `id` field (the only field
any pipeline reads).  Property access `credential.id` on a plain string
yields `undefined`, i.e. `none`. -/
inductive Credential
  | str (s : String)
  | obj (id : Option String)
deriving Repr, DecidableEq

/-- JavaScript `credential.id`: `undefined` (`none`) on a plain string. -/
def Credential.idField : Credential → Option String
  | .str _ => none
  | .obj i => i

/-- `JSON.stringify` of a credential value when it appears as a field value
(a plain string serialises as a JSON string; an object serialises its `id`
field when present, and `undefined`-valued fields are dropped). -/
def Credential.toJson : Credential → String
  | .str s => jsonStr s
  | .obj (some i) => "\x7b" ++ jsonStr "id" ++ ":" ++ jsonStr i ++ "\x7d"
  | .obj none => "\x7b\x7d"

/-- The canonical string
`JSON.stringify(\x7b issuer: issuer.trim().toLowerCase(), credential: credential.trim() \x7d)`
built by `generateIdentityHash` in `src/unnamed/part_000` (lines 10–16) and
`src/unnamed/part_002` (lines 44–50): the issuer is trimmed and lower-cased,
the credential is trimmed. -/
def identityDataString (issuer credential : String) : String :=
  "\x7b" ++ jsonStr "issuer" ++ ":" ++ jsonStr (jsToLower (jsTrim issuer)) ++ ","
      ++ jsonStr "credential" ++ ":" ++ jsonStr (jsTrim credential) ++ "\x7d"

/-- `generateIdentityHash` (identical in `src/unnamed/part_000` and
`src/unnamed/part_002`): SHA-256 of the normalized data string. -/
def generateIdentityHash (issuer credential : String) : String :=
  sha256hex (identityDataString issuer credential)

/-- The data string `JSON.stringify(\x7b issuer, credential \x7d)` built by
`generateRequestHash` in `src/unnamed/part_001` (lines 66–78): no trimming,
no case folding — the raw inputs are serialised. -/
def requestDataString (issuer : String) (credential : Credential) : String :=
  "\x7b" ++ jsonStr "issuer" ++ ":" ++ jsonStr issuer ++ ","
      ++ jsonStr "credential" ++ ":" ++ credential.toJson ++ "\x7d"

/-- `generateRequestHash` (`src/unnamed/part_001`): SHA-256 of the raw data
string. -/
def generateRequestHash (issuer : String) (credential : Credential) : String :=
  sha256hex (requestDataString issuer credential)

/-- The payload `JSON.stringify(\x7b issuer, credentialId: credential.id \x7d)`
built by `generateFingerprint` in `src/supabaseClient.js` (lines 35–38).
When `credential.id` is `undefined` — in particular for every plain-string
credential — `JSON.stringify` drops the `credentialId` property entirely. -/
def fingerprintPayload (issuer : String) (credId : Option String) : String :=
  match credId with
  | some i =>
      "\x7b" ++ jsonStr "issuer" ++ ":" ++ jsonStr issuer ++ ","
          ++ jsonStr "credentialId" ++ ":" ++ jsonStr i ++ "\x7d"
  | none => "\x7b" ++ jsonStr "issuer" ++ ":" ++ jsonStr issuer ++ "\x7d"

/-- `generateFingerprint` (`src/supabaseClient.js`): SHA-256 of the payload
derived from the issuer and the credential's `id` field only. -/
def generateFingerprint (issuer : String) (credential : Credential) : String :=
  sha256hex (fingerprintPayload issuer credential.idField)

/-- Modelled from the spec: the `lru-cache` package instantiated as
`proofCache = new LRUCache(\x7b max: 5000, ttl: CACHE_TTL, allowStale: false \x7d)`
in `src/unnamed/part_001` (lines 40–44) and `src/unnamed/part_002`
(lines 36–40) is a dependency whose implementation is not part of this
repository; the model follows §4.2 of the spec: a bounded associative
store whose `get` refreshes recency, whose `set` of an existing key
refreshes recency, and which evicts the least-recently-used entry when an
insertion would exceed `max`.  Entries are kept most-recently-used first.
(TTL expiry of cache entries is not exercised by any claim and is
omitted.) -/
structure LRU (α : Type) where
  max : Nat
  entries : List (String × α)
deriving Repr, DecidableEq

/-- Value stored under a key, if present (no recency effect). -/
def LRU.lookup {α : Type} (c : LRU α) (k : String) : Option α :=
  (c.entries.find? (fun e => e.1 == k)).map Prod.snd

/-- `cache.has(k)`: membership test (no recency effect). -/
def LRU.hasKey {α : Type} (c : LRU α) (k : String) : Bool :=
  (c.lookup k).isSome

/-- `cache.get(k)`: the stored value, and the cache with `k` refreshed to
most-recently-used on a hit. -/
def LRU.get {α : Type} (c : LRU α) (k : String) : Option α × LRU α :=
  match c.lookup k with
  | some v => (some v, ⟨c.max, (k, v) :: c.entries.filter (fun e => !(e.1 == k))⟩)
  | none => (none, c)

/-- `cache.set(k, v)`: store `v` under `k` as most-recently-used, replacing
any previous entry for `k`; if the insertion exceeds `max`, the
least-recently-used entry (the last one) is evicted. -/
def LRU.set {α : Type} (c : LRU α) (k : String) (v : α) : LRU α :=
  ⟨c.max, ((k, v) :: c.entries.filter (fun e => !(e.1 == k))).take c.max⟩

/-- Insert a list of bindings in order (left to right). -/
def LRU.setAll {α : Type} (c : LRU α) (l : List (String × α)) : LRU α :=
  l.foldl (fun c p => c.set p.1 p.2) c

/-- The provenance tags of the all-in-one server's `/check` responses:
`VOLATILE_CACHE` is the in-memory LRU hit (`source: "0G_RAM_CACHE"`),
`DURABLE_STORE` the Supabase hit (`source: "0G_DISK_CACHE"`), `COMPUTED`
the fresh computation (`source: "NEW_COMPUTE"`). -/
inductive Source
  | VOLATILE_CACHE
  | DURABLE_STORE
  | COMPUTED
deriving Repr, DecidableEq

/-- The result object the all-in-one server builds and caches:
`\x7b success, verified, proof, message \x7d`. -/
structure EnvelopeBody where
  success : Bool
  verified : Bool
  proof : Option String
  message : String
deriving Repr, DecidableEq

/-- HTTP outcome of one `POST /check` request of the all-in-one server:
`400` with an error, `200` with a result object and its `source` tag, or
`500` with an error. -/
inductive CheckResponse
  | badRequest (error : String)
  | ok (body : EnvelopeBody) (source : Source)
  | serverError (error : String)
deriving Repr, DecidableEq

/-- One row of the `identity_verifications` Supabase table, as the inserts
in `src/unnamed/part_000` (lines 80–91) and `src/unnamed/part_002`
(lines 121–127) write it (keyed externally by the `hash` column; no expiry
column is ever written). -/
structure StoreRecord where
  issuer : String
  credential : String
  verified : Bool
  proof_signature : Option String
deriving Repr, DecidableEq

/-- `.from("identity_verifications").select("*").eq("hash", h).single()`:
the row stored under hash `h`, if any. -/
def lookupStore (store : List (String × StoreRecord)) (h : String) :
    Option StoreRecord :=
  (store.find? (fun e => e.1 == h)).map Prod.snd

/-- The shared mutable state of the all-in-one server: the LRU `proofCache`
and the `identity_verifications` table. -/
structure PipeState where
  cache : LRU EnvelopeBody
  store : List (String × StoreRecord)
deriving Repr, DecidableEq

/-- The all-in-one server's `POST /check` handler (`src/unnamed/part_002`,
lines 66–138).  External effects are parameters: `oracle` is the awaited
tier-3 computation — `.ok sig` carries the `generateMockProof()` output,
`.error` a rejected await, which lands in the `catch` block — and
`insertFails` says whether the fire-and-forget Supabase insert fails
(a failed insert is not awaited by the response path).  The JavaScript
guards the cache branch with `proofCache.has` and then reads
`proofCache.get`; in this sequential model the two agree, so the branch
matches on `get` directly. -/
def checkHandler (st : PipeState) (issuer credential : String)
    (oracle : Except Unit String) (insertFails : Bool) :
    CheckResponse × PipeState :=
  if jsFalsy issuer || jsFalsy credential then
    (.badRequest "Missing issuer or credential", st)
  else
    let requestHash := generateIdentityHash issuer credential
    match st.cache.get requestHash with
    | (some cachedResult, cache') =>
        (.ok cachedResult .VOLATILE_CACHE, ⟨cache', st.store⟩)
    | (none, _) =>
        match lookupStore st.store requestHash with
        | some dbData =>
            let result : EnvelopeBody :=
              ⟨true, dbData.verified, dbData.proof_signature,
                "Retrieved from persistent storage"⟩
            (.ok result .DURABLE_STORE,
              ⟨st.cache.set requestHash result, st.store⟩)
        | none =>
            match oracle with
            | .error _ => (.serverError "Verification Failed", st)
            | .ok proofSignature =>
                let newResult : EnvelopeBody :=
                  ⟨true, true, some proofSignature,
                    "New Identity Verified & Cached"⟩
                let store' :=
                  if insertFails then st.store
                  else st.store ++
                    [(requestHash,
                      ⟨issuer, credential, true, some proofSignature⟩)]
                (.ok newResult .COMPUTED,
                  ⟨st.cache.set requestHash newResult, store'⟩)

/-- The provenance tags of `verifyIdentity` in `src/unnamed/part_000`:
`source: "CACHE (0G_LAYER)"` and `source: "COMPUTE (NEW_EXECUTION)"`. -/
inductive WSSource
  | CACHE_0G_LAYER
  | COMPUTE_NEW_EXECUTION
deriving Repr, DecidableEq

/-- Outcome of `verifyIdentity` in `src/unnamed/part_000`: either the
fail-fast invalid-input envelope (`success: false` with an error message)
or a success envelope with verdict, optional proof, source and message. -/
inductive WSResult
  | invalidInput (error : String)
  | ok (verified : Bool) (proof : Option String) (source : WSSource)
      (message : String)
deriving Repr, DecidableEq

/-- `verifyIdentity` of `src/unnamed/part_000` (verifyWithSupabase.js,
lines 32–117).  `sig` stands for the random `generateMockProof()` output
and `insertFails` for a failed Supabase insert (logged, not propagated).
The validation message is rendered without its inner quote characters;
the `timestamp` display field of the cache-hit envelope is elided. -/
def verifyIdentityWS (store : List (String × StoreRecord))
    (issuer credential : String) (sig : String) (insertFails : Bool) :
    WSResult × List (String × StoreRecord) :=
  if jsFalsy issuer || jsFalsy credential then
    (.invalidInput "Invalid Input: issuer and credential are required.", store)
  else
    let identityHash := generateIdentityHash issuer credential
    match lookupStore store identityHash with
    | some cachedData =>
        (.ok cachedData.verified cachedData.proof_signature .CACHE_0G_LAYER
          "Identity retrieved from cache (Zero Compute Cost).", store)
    | none =>
        let isVerified := jsToLower issuer == "jain university"
          && jsIncludes (jsToLower credential) "student"
        let proofSignature := if isVerified then some sig else none
        let store' :=
          if insertFails then store
          else store ++
            [(identityHash, ⟨issuer, credential, isVerified, proofSignature⟩)]
        (.ok isVerified proofSignature .COMPUTE_NEW_EXECUTION
          (if isVerified then "Identity verified and cached for future use."
            else "Identity verification failed."), store')

/-- One row of the `verification_proofs` Supabase table as
`src/supabaseClient.js` writes it (keyed externally by `content_hash`;
timestamps in milliseconds). -/
structure ProofRecord where
  is_valid : Bool
  trust_score : Nat
  proof_data : String
  expires_at : Nat
deriving Repr, DecidableEq

/-- `.from("verification_proofs").select("*").eq("content_hash", f)
.gt("expires_at", now).single()` (`src/supabaseClient.js`, lines 54–59):
the row under fingerprint `f` whose expiry is strictly in the future;
an expired row never matches. -/
def lookupProof (store : List (String × ProofRecord)) (fingerprint : String)
    (now : Nat) : Option ProofRecord :=
  (store.find?
    (fun e => e.1 == fingerprint && decide (now < e.2.expires_at))).map Prod.snd

/-- The 24-hour TTL `1000 * 60 * 60 * 24` used by the insert in
`src/supabaseClient.js` (line 91). -/
def ttl24hMs : Nat := 1000 * 60 * 60 * 24

/-- The provenance tags of `verifyIdentity` in `src/supabaseClient.js`:
`source: "PERSISTENT_CACHE"` and `source: "NEW_COMPUTE"`. -/
inductive SupaSource
  | PERSISTENT_CACHE
  | NEW_COMPUTE
deriving Repr, DecidableEq

/-- Outcome of `verifyIdentity` in `src/supabaseClient.js`: a success
envelope (verdict, trust score, source, proof payload) or the catch-all
failure envelope.  The `latency` display field is elided. -/
inductive SupaResult
  | ok (verified : Bool) (trustScore : Nat) (source : SupaSource)
      (proof : String)
  | failure (error : String)
deriving Repr, DecidableEq

/-- `verifyIdentity` of `src/supabaseClient.js` (lines 47–115).  Note the
function performs no input validation: the fingerprint is derived and the
pipeline is run for every input, including empty strings.  `now` is the
current time in milliseconds, `sig` stands for the random signature inside
the opaque proof object `performHeavyVerification` builds (the object is
represented by that signature), and `insertFails` for a failed insert
(logged, not propagated).  `performHeavyVerification` (lines 118–134) is
inlined: `isValid = issuer.startsWith("did:ethr")`, score `99`/`10`. -/
def verifyIdentitySupabase (store : List (String × ProofRecord)) (now : Nat)
    (issuer : String) (credential : Credential) (sig : String)
    (insertFails : Bool) : SupaResult × List (String × ProofRecord) :=
  let fingerprint := generateFingerprint issuer credential
  match lookupProof store fingerprint now with
  | some cachedProof =>
      (.ok cachedProof.is_valid cachedProof.trust_score .PERSISTENT_CACHE
        cachedProof.proof_data, store)
  | none =>
      let isValid := jsStartsWith issuer "did:ethr"
      let score := if isValid then 99 else 10
      let store' :=
        if insertFails then store
        else store ++ [(fingerprint, ⟨isValid, score, sig, now + ttl24hMs⟩)]
      (.ok isValid score .NEW_COMPUTE sig, store')

/-! ## Helper lemmas -/

/-- `set` makes a key retrievable whenever the cache capacity is positive. -/
theorem lru_lookup_set_self {α : Type} (c : LRU α) (k : String) (v : α)
    (hmax : 0 < c.max) : (c.set k v).lookup k = some v := by
  rcases c with ⟨max, entries⟩
  cases max with
  | zero => exact absurd hmax (by simp)
  | succ m => simp [LRU.set, LRU.lookup, List.find?]

/-- Truncating a suffix before appending does not change a truncated
append. -/
theorem take_append_take {γ : Type} (A : List γ) (B : List γ) (n : Nat) :
    (A ++ B.take n).take n = (A ++ B).take n := by
  induction A generalizing B n with
  | nil => simp [List.take_take]
  | cons x A ih =>
      cases n with
      | zero => simp
      | succ m =>
          simp only [List.cons_append, List.take_succ_cons, List.cons.injEq, true_and]
          calc (A ++ B.take (m + 1)).take m
              = (A ++ (B.take (m + 1)).take m).take m := (ih (B.take (m + 1)) m).symm
            _ = (A ++ B.take m).take m := by rw [List.take_take]; simp
            _ = (A ++ B).take m := ih B m

/-- Inserting distinct fresh keys leaves the cache holding the last `max`
insertions, most recent first. -/
theorem lru_setAll_entries {α : Type} (l : List (String × α)) (c : LRU α)
    (hdist : l.Pairwise (fun a b => a.1 ≠ b.1))
    (hfresh : ∀ p ∈ l, ∀ q ∈ c.entries, p.1 ≠ q.1)
    (hlen : c.entries.length ≤ c.max) :
    (c.setAll l).entries = (l.reverse ++ c.entries).take c.max := by
  induction l generalizing c with
  | nil => simpa [LRU.setAll] using (List.take_of_length_le hlen).symm
  | cons p rest ih =>
      rcases List.pairwise_cons.mp hdist with ⟨hp, htail⟩
      have hfilter : c.entries.filter (fun e => !(e.1 == p.1)) = c.entries := by
        apply List.filter_eq_self.mpr
        intro a ha
        simpa using (hfresh p (List.mem_cons_self p rest) a ha).symm
      have hset : (c.set p.1 p.2).entries = ((p.1, p.2) :: c.entries).take c.max := by
        simp [LRU.set, hfilter]
      have hmax : (c.set p.1 p.2).max = c.max := rfl
      have hfresh' : ∀ q ∈ rest, ∀ r ∈ (c.set p.1 p.2).entries, q.1 ≠ r.1 := by
        intro q hq r hr
        rw [hset] at hr
        have hr' := List.take_subset _ _ hr
        rcases List.mem_cons.mp hr' with h | h
        · subst h; exact (hp q hq).symm
        · exact hfresh q (List.mem_cons_of_mem _ hq) r h
      have hlen' : (c.set p.1 p.2).entries.length ≤ (c.set p.1 p.2).max := by
        rw [hset, hmax]; exact List.length_take_le _ _
      have := ih (c.set p.1 p.2) htail hfresh' hlen'
      rw [LRU.setAll, List.foldl_cons, ← LRU.setAll, this, hset, hmax]
      rw [take_append_take, List.reverse_cons, List.append_assoc]
      rfl

/-- In an association list with pairwise-distinct keys, `find?` on a member's
key returns exactly that member. -/
theorem find_entry_of_mem {α : Type} (l : List (String × α))
    (hdist : l.Pairwise (fun a b => a.1 ≠ b.1)) (p : String × α) (hp : p ∈ l) :
    l.find? (fun e => e.1 == p.1) = some p := by
  induction l with
  | nil => cases hp
  | cons q t ih =>
      rcases List.pairwise_cons.mp hdist with ⟨hq, ht⟩
      rcases List.mem_cons.mp hp with h | h
      · subst h; simp [List.find?]
      · have hne : (q.1 == p.1) = false := by
          simpa using hq p h
        simp only [List.find?, hne]
        exact ih ht h

/-! ## Claim theorems -/

/-- Claim C1: for every well-formed request whose key is present in both the
Volatile Cache (`proofCache`) and the Durable Store (the
`identity_verifications` table), possibly with different stored values, the
all-in-one server's lookup returns the Volatile Cache's value and reports
`source = VOLATILE_CACHE` (`"0G_RAM_CACHE"`), independent of the oracle,
the insert outcome, and the stored Durable Store record: the cheaper tier
is consulted first and the Durable Store value never influences the
response. -/
theorem checkHandler_tier_precedence (st : PipeState) (issuer credential : String)
    (oracle : Except Unit String) (insertFails : Bool) (v : EnvelopeBody)
    (r : StoreRecord)
    (hi : jsFalsy issuer = false) (hc : jsFalsy credential = false)
    (hcache : st.cache.lookup (generateIdentityHash issuer credential) = some v)
    (hstore : lookupStore st.store (generateIdentityHash issuer credential) = some r) :
    (checkHandler st issuer credential oracle insertFails).1 = .ok v .VOLATILE_CACHE := by
  simp [checkHandler, LRU.get, hi, hc, hcache]

/-- Witness for C1: a concrete state where the cache holds a `verified = true`
envelope and the store holds a conflicting `verified = false` record; the
response is the cache's value. -/
theorem checkHandler_tier_precedence_witness :
    (checkHandler
      ⟨⟨5000, [(generateIdentityHash "a" "b", ⟨true, true, some "pCache", "mCache"⟩)]⟩,
        [(generateIdentityHash "a" "b", ⟨"a", "b", false, some "pStore"⟩)]⟩
      "a" "b" (.ok "sig") false).1 =
      .ok ⟨true, true, some "pCache", "mCache"⟩ .VOLATILE_CACHE :=
  checkHandler_tier_precedence _ _ _ _ _ _ ⟨"a", "b", false, some "pStore"⟩
    (by decide) (by decide) (by decide) (by decide)

/-- Claim C2: for a key absent from the Volatile Cache but present in the
Durable Store, one lookup answers `source = DURABLE_STORE` and
unconditionally populates the Volatile Cache with the store's value, so
that a subsequent lookup for the same key reports
`source = VOLATILE_CACHE`.  (The all-in-one server's
`identity_verifications` rows carry no expiry column, so every present
record is non-expired.) -/
theorem checkHandler_promotion (st : PipeState) (issuer credential : String)
    (o1 o2 : Except Unit String) (b1 b2 : Bool) (r : StoreRecord)
    (hi : jsFalsy issuer = false) (hc : jsFalsy credential = false)
    (hmax : 0 < st.cache.max)
    (hmiss : st.cache.lookup (generateIdentityHash issuer credential) = none)
    (hhit : lookupStore st.store (generateIdentityHash issuer credential) = some r) :
    (checkHandler st issuer credential o1 b1).1 =
        .ok ⟨true, r.verified, r.proof_signature, "Retrieved from persistent storage"⟩
          .DURABLE_STORE
    ∧ (checkHandler (checkHandler st issuer credential o1 b1).2 issuer credential o2 b2).1 =
        .ok ⟨true, r.verified, r.proof_signature, "Retrieved from persistent storage"⟩
          .VOLATILE_CACHE := by
  have h1 : checkHandler st issuer credential o1 b1 =
      (.ok ⟨true, r.verified, r.proof_signature, "Retrieved from persistent storage"⟩
          .DURABLE_STORE,
        ⟨st.cache.set (generateIdentityHash issuer credential)
            ⟨true, r.verified, r.proof_signature, "Retrieved from persistent storage"⟩,
          st.store⟩) := by
    simp [checkHandler, LRU.get, hi, hc, hmiss, hhit]
  refine ⟨by rw [h1], ?_⟩
  rw [h1]
  simp [checkHandler, LRU.get, hi, hc, lru_lookup_set_self _ _ _ hmax]

/-- Witness for C2: a concrete store-only state; the first lookup is served
by the store, the second by the promoted cache entry. -/
theorem checkHandler_promotion_witness :
    (checkHandler ⟨⟨5000, []⟩, [(generateIdentityHash "a" "b", ⟨"a", "b", true, some "pS"⟩)]⟩
        "a" "b" (.ok "s1") false).1 =
      .ok ⟨true, true, some "pS", "Retrieved from persistent storage"⟩ .DURABLE_STORE
    ∧ (checkHandler
        (checkHandler ⟨⟨5000, []⟩,
            [(generateIdentityHash "a" "b", ⟨"a", "b", true, some "pS"⟩)]⟩
          "a" "b" (.ok "s1") false).2 "a" "b" (.ok "s2") true).1 =
      .ok ⟨true, true, some "pS", "Retrieved from persistent storage"⟩ .VOLATILE_CACHE :=
  checkHandler_promotion _ "a" "b" _ _ _ _ ⟨"a", "b", true, some "pS"⟩
    (by decide) (by decide) (by decide) (by decide) (by decide)

/-- Claim C3: in the persistence-layer pipeline (`src/supabaseClient.js`),
a Durable Store record whose `expires_at` lies in the past (here: every
record stored under the request's fingerprint is expired) is treated
identically to absence — the expired record is never returned, and the
pipeline proceeds to the Tier 3 compute, answering with the freshly
computed verdict and `source = NEW_COMPUTE`.  (The other pipelines' store
rows carry no expiry column at all.) -/
theorem verifyIdentitySupabase_expired_ignored (store : List (String × ProofRecord))
    (now : Nat) (issuer : String) (credential : Credential) (sig : String)
    (insertFails : Bool)
    (hexp : ∀ p ∈ store,
      p.1 = generateFingerprint issuer credential → p.2.expires_at ≤ now) :
    (verifyIdentitySupabase store now issuer credential sig insertFails).1 =
      .ok (jsStartsWith issuer "did:ethr")
        (if jsStartsWith issuer "did:ethr" then 99 else 10) .NEW_COMPUTE sig := by
  have hnone : lookupProof store (generateFingerprint issuer credential) now = none := by
    unfold lookupProof
    rw [List.find?_eq_none.mpr]
    · rfl
    · intro x hx
      simp only [Bool.and_eq_true, beq_iff_eq, decide_eq_true_eq, not_and]
      intro h1 h2
      exact absurd (hexp x hx h1) (by omega)
  simp [verifyIdentitySupabase, hnone]

/-- Witness for C3: a record expired at time `5`, queried at time `10`; the
answer comes from compute, not from the expired record. -/
theorem verifyIdentitySupabase_expired_ignored_witness :
    (verifyIdentitySupabase
        [(generateFingerprint "i" (.obj (some "c")), ⟨true, 99, "oldProof", 5⟩)]
        10 "i" (.obj (some "c")) "freshSig" false).1 =
      .ok (jsStartsWith "i" "did:ethr")
        (if jsStartsWith "i" "did:ethr" then 99 else 10) .NEW_COMPUTE "freshSig" :=
  verifyIdentitySupabase_expired_ignored _ 10 "i" (.obj (some "c")) "freshSig" false
    (by decide)

/-- Claim C4: when a request reaches Tier 3 and the compute succeeds, a
failing Durable Store insert (`insertFails = true`) does not fail the
request: the response is still a success envelope with
`source = COMPUTED` carrying the freshly computed result, and that result
is still written into the Volatile Cache. -/
theorem checkHandler_store_failure_tolerated (st : PipeState)
    (issuer credential sig : String)
    (hi : jsFalsy issuer = false) (hc : jsFalsy credential = false)
    (hmax : 0 < st.cache.max)
    (hmiss : st.cache.lookup (generateIdentityHash issuer credential) = none)
    (hsmiss : lookupStore st.store (generateIdentityHash issuer credential) = none) :
    (checkHandler st issuer credential (.ok sig) true).1 =
        .ok ⟨true, true, some sig, "New Identity Verified & Cached"⟩ .COMPUTED
    ∧ (checkHandler st issuer credential (.ok sig) true).2.cache.lookup
          (generateIdentityHash issuer credential) =
        some ⟨true, true, some sig, "New Identity Verified & Cached"⟩ := by
  have h1 : checkHandler st issuer credential (.ok sig) true =
      (.ok ⟨true, true, some sig, "New Identity Verified & Cached"⟩ .COMPUTED,
        ⟨st.cache.set (generateIdentityHash issuer credential)
            ⟨true, true, some sig, "New Identity Verified & Cached"⟩, st.store⟩) := by
    simp [checkHandler, LRU.get, hi, hc, hmiss, hsmiss]
  exact ⟨by rw [h1], by rw [h1]; exact lru_lookup_set_self _ _ _ hmax⟩

/-- Witness for C4: a full miss on an empty state with a failing insert;
the response and the populated cache entry. -/
theorem checkHandler_store_failure_tolerated_witness :
    (checkHandler ⟨⟨5000, []⟩, []⟩ "a" "b" (.ok "sig") true).1 =
        .ok ⟨true, true, some "sig", "New Identity Verified & Cached"⟩ .COMPUTED
    ∧ (checkHandler ⟨⟨5000, []⟩, []⟩ "a" "b" (.ok "sig") true).2.cache.lookup
          (generateIdentityHash "a" "b") =
        some ⟨true, true, some "sig", "New Identity Verified & Cached"⟩ :=
  checkHandler_store_failure_tolerated _ "a" "b" "sig"
    (by decide) (by decide) (by decide) (by decide) (by decide)

/-- Claim C5: a failing Tier 3 compute (a rejected await, covering oracle
failure, timeout, or any unexpected error in the tiered steps) leaves both
tiers untouched — the returned state is exactly the input state — and the
request fails with the generic internal-error envelope
(`500 Verification Failed`); a repeat request for the same key on that
unchanged state re-attempts the compute (its answer carries
`source = COMPUTED`). -/
theorem checkHandler_compute_failure_not_cached (st : PipeState)
    (issuer credential sig : String) (b b2 : Bool)
    (hi : jsFalsy issuer = false) (hc : jsFalsy credential = false)
    (hmiss : st.cache.lookup (generateIdentityHash issuer credential) = none)
    (hsmiss : lookupStore st.store (generateIdentityHash issuer credential) = none) :
    checkHandler st issuer credential (.error ()) b =
        (.serverError "Verification Failed", st)
    ∧ (checkHandler st issuer credential (.ok sig) b2).1 =
        .ok ⟨true, true, some sig, "New Identity Verified & Cached"⟩ .COMPUTED := by
  constructor
  · simp [checkHandler, LRU.get, hi, hc, hmiss, hsmiss]
  · simp [checkHandler, LRU.get, hi, hc, hmiss, hsmiss]

/-- Witness for C5: a failed compute on the empty state leaves it empty and
returns the 500 envelope; the retry computes. -/
theorem checkHandler_compute_failure_not_cached_witness :
    checkHandler ⟨⟨5000, []⟩, []⟩ "a" "b" (.error ()) false =
        (.serverError "Verification Failed", ⟨⟨5000, []⟩, []⟩)
    ∧ (checkHandler ⟨⟨5000, []⟩, []⟩ "a" "b" (.ok "sig") false).1 =
        .ok ⟨true, true, some "sig", "New Identity Verified & Cached"⟩ .COMPUTED :=
  checkHandler_compute_failure_not_cached _ "a" "b" "sig" _ _
    (by decide) (by decide) (by decide) (by decide)

/-- Counterexample for C6: the persistence-layer pipeline
(`src/supabaseClient.js`) performs no input validation.  With an empty
issuer it does not fail fast with an invalid-input failure: it derives the
fingerprint, probes the store, runs the compute — answering a success
envelope with `source = NEW_COMPUTE` — and inserts a record into the
Durable Store. -/
theorem verifyIdentitySupabase_no_validation_cex :
    (verifyIdentitySupabase [] 0 "" (.str "x") "sig" false).1 =
        .ok false 10 .NEW_COMPUTE "sig"
    ∧ (verifyIdentitySupabase [] 0 "" (.str "x") "sig" false).2 =
        [(generateFingerprint "" (.str "x"), ⟨false, 10, "sig", ttl24hMs⟩)] := by
  decide

/-- Claim C6 (amended): in the all-in-one server and in the
verifyWithSupabase pipeline, every request with an empty or missing
issuer or credential fails fast with the invalid-input failure, and the
state (cache and store) is returned unchanged — no key derivation, tier
access, or compute is reflected in the outcome.  (The persistence-layer
`verifyIdentity` of `src/supabaseClient.js` performs no such validation;
see the counterexample.) -/
theorem validated_pipelines_fail_fast (st : PipeState)
    (store : List (String × StoreRecord)) (issuer credential : String)
    (oracle : Except Unit String) (b b2 : Bool) (sig : String)
    (h : (jsFalsy issuer || jsFalsy credential) = true) :
    checkHandler st issuer credential oracle b =
        (.badRequest "Missing issuer or credential", st)
    ∧ verifyIdentityWS store issuer credential sig b2 =
        (.invalidInput "Invalid Input: issuer and credential are required.", store) := by
  constructor <;> simp [checkHandler, verifyIdentityWS, h]

/-- Witness for C6 (amended): the empty issuer is rejected by both
validating pipelines with states unchanged. -/
theorem validated_pipelines_fail_fast_witness :
    checkHandler ⟨⟨5000, []⟩, []⟩ "" "x" (.ok "sig") false =
        (.badRequest "Missing issuer or credential", ⟨⟨5000, []⟩, []⟩)
    ∧ verifyIdentityWS [] "" "x" "sig" false =
        (.invalidInput "Invalid Input: issuer and credential are required.", []) :=
  validated_pipelines_fail_fast _ _ "" "x" _ _ _ "sig" (by decide)

/-- Counterexample for C7: `generateRequestHash` of `src/unnamed/part_001`
applies no normalization, so the inputs `("A", "x")` and `("a", "x")` —
normalized-equal under the documented rule (they differ only in issuer
case) — derive different keys. -/
theorem generateRequestHash_not_normalized_cex :
    jsToLower (jsTrim "A") = jsToLower (jsTrim "a")
    ∧ generateRequestHash "A" (.str "x") ≠ generateRequestHash "a" (.str "x") := by
  decide

/-- Claim C7 (amended): `generateIdentityHash` (the derivation used by
`src/unnamed/part_000` and `src/unnamed/part_002`) called twice on the
same pair yields an identical key, and any two normalized-equal inputs —
equal after trimming and lower-casing the issuer and trimming the
credential — derive equal keys.  (`generateRequestHash` of
`src/unnamed/part_001` hashes the raw inputs and does not enjoy the
normalization property; see the counterexample.) -/
theorem generateIdentityHash_norm_deterministic (i1 c1 i2 c2 : String)
    (hni : jsToLower (jsTrim i1) = jsToLower (jsTrim i2))
    (hnc : jsTrim c1 = jsTrim c2) :
    generateIdentityHash i1 c1 = generateIdentityHash i1 c1
    ∧ generateIdentityHash i1 c1 = generateIdentityHash i2 c2 := by
  refine ⟨rfl, ?_⟩
  unfold generateIdentityHash identityDataString
  rw [hni, hnc]

/-- Witness for C7 (amended): `(" A ", "x ")` and `("a", " x")` are
normalized-equal and derive equal keys. -/
theorem generateIdentityHash_norm_deterministic_witness :
    generateIdentityHash " A " "x " = generateIdentityHash " A " "x "
    ∧ generateIdentityHash " A " "x " = generateIdentityHash "a" " x" :=
  generateIdentityHash_norm_deterministic " A " "x " "a" " x" (by decide) (by decide)

/-- Claim C8: inserting `N + 1` distinct keys into a Volatile Cache of
maximum size `N` evicts exactly the least-recently-used key — the first
one inserted — whose lookup then misses, while the other `N` keys remain
present with their values; moreover a `get` hit refreshes its key to
most-recently-used, and a `set` makes its key most-recently-used (so a
`set` of an existing key counts as use). -/
theorem lru_capacity_evicts_lru {α : Type} (N : Nat) (k0 : String) (v0 : α)
    (rest : List (String × α)) (hlen : rest.length = N)
    (hdist : ((k0, v0) :: rest).Pairwise (fun a b => a.1 ≠ b.1)) :
    ((LRU.mk N []).setAll ((k0, v0) :: rest)).lookup k0 = none
    ∧ (∀ p ∈ rest, ((LRU.mk N []).setAll ((k0, v0) :: rest)).lookup p.1 = some p.2)
    ∧ (∀ (c : LRU α) (k : String) (v : α), c.lookup k = some v →
        ((c.get k).2.entries.head? = some (k, v)))
    ∧ (∀ (c : LRU α) (k : String) (w : α), 0 < c.max →
        (c.set k w).entries.head? = some (k, w)) := by
  rcases List.pairwise_cons.mp hdist with ⟨hk0, hrest⟩
  have hentries : ((LRU.mk N []).setAll ((k0, v0) :: rest)).entries = rest.reverse := by
    have h := lru_setAll_entries ((k0, v0) :: rest) (LRU.mk N []) hdist
      (by intro p hp q hq; cases hq) (by simp)
    rw [h]
    simp only [List.append_nil, List.reverse_cons]
    have : rest.reverse.length = N := by simpa using hlen
    rw [← this, List.take_left]
  have hdrev : rest.reverse.Pairwise (fun a b => a.1 ≠ b.1) := by
    rw [List.pairwise_reverse]
    exact hrest.imp (fun h => h.symm)
  refine ⟨?_, ?_, ?_, ?_⟩
  · unfold LRU.lookup
    rw [hentries, List.find?_eq_none.mpr]
    · rfl
    · intro x hx
      have hx' := List.mem_reverse.mp hx
      simpa using (hk0 x hx').symm
  · intro p hp
    unfold LRU.lookup
    rw [hentries, find_entry_of_mem rest.reverse hdrev p (List.mem_reverse.mpr hp)]
    rfl
  · intro c k v hv
    simp [LRU.get, hv]
  · intro c k w hmax
    rcases c with ⟨max, entries⟩
    cases max with
    | zero => exact absurd hmax (by simp)
    | succ m => simp [LRU.set]

/-- Witness for C8: three distinct keys into a cache of size two evict
exactly the first key. -/
theorem lru_capacity_evicts_lru_witness :
    ((LRU.mk 2 []).setAll [("k0", 0), ("k1", 1), ("k2", 2)]).lookup "k0" = none
    ∧ (∀ p ∈ [("k1", 1), ("k2", 2)],
        ((LRU.mk 2 []).setAll [("k0", 0), ("k1", 1), ("k2", 2)]).lookup p.1 = some p.2)
    ∧ (∀ (c : LRU Nat) (k : String) (v : Nat), c.lookup k = some v →
        ((c.get k).2.entries.head? = some (k, v)))
    ∧ (∀ (c : LRU Nat) (k : String) (w : Nat), 0 < c.max →
        (c.set k w).entries.head? = some (k, w)) :=
  lru_capacity_evicts_lru 2 "k0" 0 [("k1", 1), ("k2", 2)] (by decide) (by decide)

/-- Claim C9: in the all-in-one server, every well-formed request that
misses both the Volatile Cache and the Durable Store is answered by the
Tier 3 path with `verified = true`, whatever the issuer and credential
contents are: no input reaching the compute tier is reported
unverified. -/
theorem checkHandler_compute_always_verified (st : PipeState)
    (issuer credential sig : String) (b : Bool)
    (hi : jsFalsy issuer = false) (hc : jsFalsy credential = false)
    (hmiss : st.cache.lookup (generateIdentityHash issuer credential) = none)
    (hsmiss : lookupStore st.store (generateIdentityHash issuer credential) = none) :
    (checkHandler st issuer credential (.ok sig) b).1 =
        .ok ⟨true, true, some sig, "New Identity Verified & Cached"⟩ .COMPUTED := by
  simp [checkHandler, LRU.get, hi, hc, hmiss, hsmiss]

/-- Witness for C9: an arbitrary unknown issuer/credential pair is still
reported verified by the compute tier. -/
theorem checkHandler_compute_always_verified_witness :
    (checkHandler ⟨⟨5000, []⟩, []⟩ "x-unknown-issuer" "y-unknown-credential"
        (.ok "sig") false).1 =
      .ok ⟨true, true, some "sig", "New Identity Verified & Cached"⟩ .COMPUTED :=
  checkHandler_compute_always_verified _ "x-unknown-issuer" "y-unknown-credential" "sig" _
    (by decide) (by decide) (by decide) (by decide)

/-- Claim C10: the persistence-layer fingerprint depends only on the issuer
and the credential's `id` field — any two credentials with equal `id`
projections fingerprint identically under a fixed issuer.  In particular
every plain-string credential has `id = undefined` (dropped from the JSON
payload), so any two distinct plain strings share one fingerprint, hence
one cache/store key and one verification record. -/
theorem generateFingerprint_depends_only_on_id (issuer : String) (c1 c2 : Credential)
    (h : c1.idField = c2.idField) :
    generateFingerprint issuer c1 = generateFingerprint issuer c2 := by
  unfold generateFingerprint
  rw [h]

/-- Witness for C10: the distinct plain strings `"alpha"` and `"beta"`
fingerprint identically. -/
theorem generateFingerprint_depends_only_on_id_witness :
    generateFingerprint "I" (.str "alpha") = generateFingerprint "I" (.str "beta") :=
  generateFingerprint_depends_only_on_id "I" (.str "alpha") (.str "beta") (by decide)
